import Mathlib

/-!
Verification of the research_trend_analyzer pipeline core.

This file is a shallow embedding of the persistence layer
(utils/helper_func.py), the paper filter (tools/paper_filter.py), the
summarizer and aggregator path logic (tools/paper_summarizer.py,
tools/summary_aggregator.py), the workflow nodes (agent/nodes.py) and the
workflow routing (agent/graph.py).  JSONL files are modelled by their
decoded row sequences; the filesystem is modelled as a partial map from
paths to contents; exceptions are modelled with Except.
-/

namespace RTA

/-- A Python/JSON value, as stored in JSONL rows.  Floats are not needed by
any claim and are omitted. -/
inductive PyVal where
  | vNull : PyVal
  | vBool (b : Bool) : PyVal
  | vInt (n : Int) : PyVal
  | vStr (s : String) : PyVal
  | vList (xs : List PyVal) : PyVal
  | vDict (fields : List (String × PyVal)) : PyVal

/-- Escaping of a string for JSON serialization (json.dumps with
ensure_ascii=False); only the quote and backslash need escaping for the
values appearing in this development. -/
def jsonEscape (s : String) : String :=
  s.toList.foldl
    (fun acc c =>
      if c = '"' then acc ++ "\\\""
      else if c = '\\' then acc ++ "\\\\"
      else acc.push c) ""

/-- Insert a key/rendered-value pair into a list sorted by key
(json.dumps sort_keys=True sorts the keys of every object). -/
def insertPair (p : String × String) : List (String × String) → List (String × String)
  | [] => [p]
  | q :: qs => if p.1 < q.1 then p :: q :: qs else q :: insertPair p qs

/-- Sort key/rendered-value pairs by key. -/
def sortPairs (l : List (String × String)) : List (String × String) :=
  l.foldr insertPair []

/-- Render the sorted members of a JSON object with the default
json.dumps separators. -/
def joinMembers : List (String × String) → String
  | [] => ""
  | [(k, v)] => "\"" ++ jsonEscape k ++ "\": " ++ v
  | (k, v) :: fs => "\"" ++ jsonEscape k ++ "\": " ++ v ++ ", " ++ joinMembers fs

mutual

/-- The canonical JSON string of a value: the model of
json.dumps(obj, sort_keys=True, ensure_ascii=False) used by update_jsonl
(utils/helper_func.py line 215) as the dedupe key. -/
def canon : PyVal → String
  | .vNull => "null"
  | .vBool true => "true"
  | .vBool false => "false"
  | .vInt n => toString n
  | .vStr s => "\"" ++ jsonEscape s ++ "\""
  | .vList xs => "[" ++ canonSeq xs ++ "]"
  | .vDict fs => "\x7b" ++ joinMembers (sortPairs (canonPairs fs)) ++ "\x7d"

/-- Render a list of values with the default json.dumps separator. -/
def canonSeq : List PyVal → String
  | [] => ""
  | [x] => canon x
  | x :: y :: xs => canon x ++ ", " ++ canonSeq (y :: xs)

/-- Render each object member's value, keeping the key for sorting. -/
def canonPairs : List (String × PyVal) → List (String × String)
  | [] => []
  | (k, v) :: fs => (k, canon v) :: canonPairs fs

end

/-- Whether a row is a dict (Python isinstance(r, dict)). -/
def isDict : PyVal → Bool
  | .vDict _ => true
  | _ => false

/-- load_jsonl (utils/helper_func.py lines 114-148): raises
FileNotFoundError when the path does not exist, otherwise yields the
dict rows of the file (non-dict rows are skipped with a warning).  The
filesystem is a partial map from paths to decoded row lists. -/
def load_jsonl (fs : String → Option (List PyVal)) (path : String) :
    Except String (List PyVal) :=
  match fs path with
  | none => .error ("File not found: " ++ path)
  | some rows => .ok (rows.filter isDict)

/-- Accumulator of the dedupe loop of update_jsonl: the merged rows, the
set of canonical strings seen so far, and the number of rows added. -/
structure DedupAcc where
  merged : List PyVal
  seen : List String
  added : Nat

/-- One iteration of the dedupe loop of update_jsonl
(utils/helper_func.py lines 219-224). -/
def updStep (acc : DedupAcc) (r : PyVal) : DedupAcc :=
  let c := canon r
  if acc.seen.contains c then acc
  else { merged := acc.merged ++ [r], seen := c :: acc.seen, added := acc.added + 1 }

/-- The rows update_jsonl starts from: the dict rows of the file when it
exists (the load_jsonl call at utils/helper_func.py line 210), and the
empty list when it does not. -/
def loadedRows (file : Option (List PyVal)) : List PyVal :=
  match file with
  | some rs => rs.filter isDict
  | none => []

/-- The dedupe loop of update_jsonl (utils/helper_func.py lines 214-224)
run over a full candidate list, starting from the loaded rows. -/
def mergeRows (existing cands : List PyVal) : DedupAcc :=
  cands.foldl updStep
    { merged := existing, seen := existing.map canon, added := 0 }

/-- update_jsonl (utils/helper_func.py lines 184-236), acting on the
contents of one file (none models a missing file).  Returns the new file
contents and the number of rows added.  When no valid rows are given, or
all rows are duplicates, the function returns 0 before saving, leaving
the file untouched. -/
def update_jsonl (file : Option (List PyVal)) (rows : List PyVal) :
    Option (List PyVal) × Nat :=
  let candidates := rows.filter isDict
  if candidates.isEmpty then (file, 0)
  else
    let res := mergeRows (loadedRows file) candidates
    if res.added = 0 then (file, 0) else (some res.merged, res.added)

/-! String helpers shared by the tools. -/

/-- Lowercase every character (Python str.lower; ASCII case mapping). -/
def pyLower (s : String) : String := String.mk (s.toList.map Char.toLower)

/-- Python str.strip(): drop leading and trailing whitespace. -/
def pyStrip (s : String) : String :=
  String.mk
    (((s.toList.dropWhile Char.isWhitespace).reverse.dropWhile
      Char.isWhitespace).reverse)

/-- Whether the first list is an initial segment of the second. -/
def listIsPfx : List Char → List Char → Bool
  | [], _ => true
  | _ :: _, [] => false
  | a :: as, b :: bs => a = b && listIsPfx as bs

/-- Substring containment (the Python expression kw in title). -/
def strContains (hay needle : String) : Bool :=
  let h := hay.toList
  (List.range (h.length + 1)).any (fun i => listIsPfx needle.toList (h.drop i))

/-- Python str() of a value, as needed on the value types that occur in
paper records (strings are returned verbatim). -/
def pyStr : PyVal → String
  | .vNull => "None"
  | .vBool true => "True"
  | .vBool false => "False"
  | .vInt n => toString n
  | .vStr s => s
  | .vList _ => "[...]"
  | .vDict _ => "\x7b...\x7d"

/-- paper.get(key, default) on a dict row (first binding wins, as in a
Python dict, whose keys are unique). -/
def dictGetD (r : PyVal) (key : String) (default : PyVal) : PyVal :=
  match r with
  | .vDict fields =>
    match fields.lookup key with
    | some v => v
    | none => default
  | _ => default

/-! safe_filename (utils/helper_func.py lines 54-58). -/

/-- The per-character replacement of safe_filename: keep alphanumerics,
dash, underscore and space, replace everything else with an underscore.
Char.isAlphanum is the ASCII class; Python's str.isalnum also keeps
non-ASCII alphanumerics, so this replacement (and the functions built on
it) is faithful to the source only on asciiSafe input, the domain the
C10 theorem is scoped to. -/
def pyKeepChar (c : Char) : Char :=
  if c.isAlphanum || c == '-' || c == '_' || c == ' ' then c else '_'

/-- The input characters on which the ASCII model of safe_filename
agrees with the Python source: ASCII, excluding the six control
characters (vertical tab, form feed and the four separators 28-31) that
Python's str.strip and str.split treat as whitespace but the model does
not. -/
def asciiSafe (c : Char) : Bool :=
  decide (c.toNat < 128) &&
    !(c == '\x0b' || c == '\x0c' || c == '\x1c' || c == '\x1d' ||
      c == '\x1e' || c == '\x1f')

/-- Python str.split() with no arguments: split on whitespace runs,
discarding empty pieces.  The accumulator holds the current word in
reverse. -/
def splitWsAux : List Char → List Char → List (List Char)
  | [], cur => if cur.isEmpty then [] else [cur.reverse]
  | c :: rest, cur =>
    if c.isWhitespace then
      if cur.isEmpty then splitWsAux rest []
      else cur.reverse :: splitWsAux rest []
    else splitWsAux rest (c :: cur)

/-- Python str.split() with no arguments. -/
def splitWs (cs : List Char) : List (List Char) := splitWsAux cs []

/-- Python "_".join(words). -/
def joinUnderscore : List (List Char) → List Char
  | [] => []
  | [w] => w
  | w :: v :: ws => w ++ '_' :: joinUnderscore (v :: ws)

/-- safe_filename (utils/helper_func.py lines 54-58): strip, replace
non-alphanumerics by underscores, collapse space-separated words with
underscores, truncate to 180 characters, lowercase, and fall back to
untitled for an empty result.  The character classes (isAlphanum,
toLower, isWhitespace) are the ASCII ones, under which lowercasing is
length-preserving; the source's Unicode str.lower() runs after the
truncation and may expand a character into several (for example the
dotted capital I becomes a two-character sequence with a combining dot),
so this model is faithful to the source only on asciiSafe input, and the
C10 theorem is scoped to that domain. -/
def safe_filename (name : String) : String :=
  let stripped := (pyStrip name).toList
  let replaced := stripped.map pyKeepChar
  let joined := joinUnderscore (splitWs replaced)
  let truncated := joined.take 180
  let lowered := truncated.map Char.toLower
  if lowered.isEmpty then "untitled" else String.mk lowered

/-! Artifact paths of the summarize and aggregate stages. -/

/-- Drop leading and trailing underscores (Python str.strip with an
underscore argument). -/
def stripUnderscores (cs : List Char) : List Char :=
  ((cs.dropWhile (fun c => c = '_')).reverse.dropWhile (fun c => c = '_')).reverse

/-- The sanitized topic key used by the filter and summarize stages
(tools/paper_filter.py lines 165-166, tools/paper_summarizer.py lines
54-55): keep alphanumerics, dash and underscore of the stripped,
lowercased topic, replace the rest with underscores, strip underscores,
and fall back to the word topic. -/
def sanitizeTopicKey (topic : String) : String :=
  let t := (pyStrip topic).toList.map Char.toLower
  let t := t.map (fun c => if c.isAlphanum || c == '-' || c == '_' then c else '_')
  let t := stripUnderscores t
  if t.isEmpty then "topic" else String.mk t

/-- The path at which PaperSummarizerTool persists a summary for a run
with a topic: _run (tools/paper_summarizer.py lines 51-57) computes
summary_base = root/conference_year/topic_key, and _summarize_paper
(lines 196-200) appends general/language/slug.md below it. -/
def summarizerSummaryPath (root conference : String) (year : Int)
    (topic lang title : String) : String :=
  let confKey := pyLower (pyStrip conference)
  let base := root ++ "/" ++ confKey ++ "_" ++ toString year ++ "/" ++
    sanitizeTopicKey topic
  base ++ "/" ++ "general" ++ "/" ++ lang ++ "/" ++ safe_filename title ++ ".md"

/-- The path at which _aggregate_summaries_impl looks a summary up
(tools/summary_aggregator.py lines 42-44, 71 and 88-91):
root/conference_year/topic/language/slug.md, with the topic merely
stripped and lowercased. -/
def aggregatorSummaryPath (root conference : String) (year : Int)
    (topic lang title : String) : String :=
  let confKey := pyLower (pyStrip conference)
  let topicKey := pyLower (pyStrip topic)
  root ++ "/" ++ confKey ++ "_" ++ toString year ++ "/" ++ topicKey ++ "/" ++
    lang ++ "/" ++ safe_filename title ++ ".md"

/-! The keyword filter (tools/paper_filter.py, _filter_by_keywords). -/

/-- The normalized keyword set of the keyword filter
(tools/paper_filter.py line 142): strip and lowercase each keyword,
dropping blank ones.  A list models the Python set; only membership is
used. -/
def normalizeKeywords (keywords : List String) : List String :=
  (keywords.filter (fun k => pyStrip k != "")).map (fun k => pyLower (pyStrip k))

/-- The per-paper test of the keyword filter (tools/paper_filter.py lines
152-161): a dict paper is kept when its lowercased title is non-empty and
contains some normalized keyword as a substring. -/
def keywordMatch (kws : List String) (paper : PyVal) : Bool :=
  isDict paper &&
    (let title := pyLower (pyStr (dictGetD paper "title" (.vStr "")))
     title != "" && kws.any (fun kw => strContains title kw))

/-- The selection computed by PaperFilterTool._filter_by_keywords
(tools/paper_filter.py lines 150-161) from the topic keywords and the
crawled paper list. -/
def filterByKeywordsSelect (keywords : List String) (papers : List PyVal) :
    List PyVal :=
  papers.filter (keywordMatch (normalizeKeywords keywords))

/-! The LLM decision of the filter stage (tools/paper_filter.py). -/

/-- Whitespace skipping of the JSON reader modelling json.loads. -/
def jsSkipWs (cs : List Char) : List Char :=
  cs.dropWhile (fun c => c == ' ' || c == '\t' || c == '\n' || c == '\r')

/-- Unescape one backslash escape of a JSON string. -/
def jsUnescape (c : Char) : Char :=
  if c = 'n' then '\n' else if c = 't' then '\t' else if c = 'r' then '\r' else c

/-- Read the body of a JSON string after its opening quote, returning the
characters and the remaining input. -/
def jsReadStrAux : List Char → Option (List Char × List Char)
  | [] => none
  | '"' :: rest => some ([], rest)
  | '\\' :: c :: rest =>
    match jsReadStrAux rest with
    | some (s, r) => some (jsUnescape c :: s, r)
    | none => none
  | c :: rest =>
    match jsReadStrAux rest with
    | some (s, r) => some (c :: s, r)
    | none => none

/-- The numeric value of a digit string. -/
def digitsVal (ds : List Char) : Nat :=
  ds.foldl (fun a c => a * 10 + (c.toNat - 48)) 0

/-- Read a JSON integer (floats do not occur in the inputs in scope). -/
def jsReadInt (cs : List Char) : Option (Int × List Char) :=
  let neg := match cs with
    | '-' :: _ => true
    | _ => false
  let cs1 := if neg then cs.drop 1 else cs
  let ds := cs1.takeWhile Char.isDigit
  let rest := cs1.dropWhile Char.isDigit
  if ds.isEmpty then none
  else some ((if neg then -(digitsVal ds : Int) else (digitsVal ds : Int)), rest)

mutual

/-- Read one JSON value; the fuel bounds the nesting depth. -/
def jsReadVal : Nat → List Char → Option (PyVal × List Char)
  | 0, _ => none
  | fuel + 1, cs =>
    match jsSkipWs cs with
    | [] => none
    | c :: rest =>
      if c = '"' then
        match jsReadStrAux rest with
        | some (s, r) => some (.vStr (String.mk s), r)
        | none => none
      else if c = '\x7b' then jsReadObj fuel rest
      else if c = '[' then jsReadArr fuel rest
      else if listIsPfx ['t', 'r', 'u', 'e'] (c :: rest) then
        some (.vBool true, (c :: rest).drop 4)
      else if listIsPfx ['f', 'a', 'l', 's', 'e'] (c :: rest) then
        some (.vBool false, (c :: rest).drop 5)
      else if listIsPfx ['n', 'u', 'l', 'l'] (c :: rest) then
        some (.vNull, (c :: rest).drop 4)
      else
        match jsReadInt (c :: rest) with
        | some (n, r) => some (.vInt n, r)
        | none => none

/-- Read the members of a JSON object after its opening brace. -/
def jsReadObj : Nat → List Char → Option (PyVal × List Char)
  | 0, _ => none
  | fuel + 1, cs =>
    match jsSkipWs cs with
    | '\x7d' :: r => some (.vDict [], r)
    | cs' =>
      match jsReadMembers fuel cs' with
      | some (ms, r) => some (.vDict ms, r)
      | none => none

/-- Read one or more key/value members, separated by commas and closed by
a brace. -/
def jsReadMembers : Nat → List Char → Option (List (String × PyVal) × List Char)
  | 0, _ => none
  | fuel + 1, cs =>
    match jsSkipWs cs with
    | '"' :: rest =>
      match jsReadStrAux rest with
      | some (k, r1) =>
        match jsSkipWs r1 with
        | ':' :: r2 =>
          match jsReadVal fuel r2 with
          | some (v, r3) =>
            match jsSkipWs r3 with
            | ',' :: r4 =>
              match jsReadMembers fuel r4 with
              | some (ms, r5) => some ((String.mk k, v) :: ms, r5)
              | none => none
            | '\x7d' :: r4 => some ([(String.mk k, v)], r4)
            | _ => none
          | none => none
        | _ => none
      | none => none
    | _ => none

/-- Read the items of a JSON array after its opening bracket. -/
def jsReadArr : Nat → List Char → Option (PyVal × List Char)
  | 0, _ => none
  | fuel + 1, cs =>
    match jsSkipWs cs with
    | ']' :: r => some (.vList [], r)
    | cs' =>
      match jsReadItems fuel cs' with
      | some (xs, r) => some (.vList xs, r)
      | none => none

/-- Read one or more array items, separated by commas and closed by a
bracket. -/
def jsReadItems : Nat → List Char → Option (List PyVal × List Char)
  | 0, _ => none
  | fuel + 1, cs =>
    match jsReadVal fuel cs with
    | some (v, r1) =>
      match jsSkipWs r1 with
      | ',' :: r2 =>
        match jsReadItems fuel r2 with
        | some (xs, r3) => some (v :: xs, r3)
        | none => none
      | ']' :: r2 => some ([v], r2)
      | _ => none
    | none => none

end

/-- Model of json.loads on the value shapes relevant to the filter:
objects, arrays, strings, integers and the three literals.  A value with
trailing non-whitespace input is a parse failure. -/
def json_loads (s : String) : Option PyVal :=
  match jsReadVal (s.length + 1) s.toList with
  | some (v, rest) => if (jsSkipWs rest).isEmpty then some v else none
  | none => none

/-- _parse_llm_decision (tools/paper_filter.py lines 21-52): a None input
models a non-string response.  Accepts the bare strings 1 and 0, then a
JSON object with a decision member equal to 0, 1, a boolean (Python
treats True and False as 1 and 0) or a string stripping to 0 or 1, then
the lowercased substring fallbacks; anything else is undecidable. -/
def parse_llm_decision (response : Option String) : Option Bool :=
  match response with
  | none => none
  | some rt =>
    let s := pyStrip rt
    if s = "1" then some true
    else if s = "0" then some false
    else
      let viaJson : Option Bool :=
        match json_loads s with
        | some (.vDict fields) =>
          match fields.lookup "decision" with
          | some (.vInt 0) => some false
          | some (.vInt 1) => some true
          | some (.vBool b) => some b
          | some (.vStr ds) =>
            if pyStrip ds = "0" then some false
            else if pyStrip ds = "1" then some true
            else none
          | _ => none
        | _ => none
      match viaJson with
      | some b => some b
      | none =>
        let low := pyLower s
        if strContains low "decision=1" || strContains low "\"decision\": 1" then
          some true
        else if strContains low "decision=0" || strContains low "\"decision\": 0" then
          some false
        else none

/-- The reply of the LLM collaborator, as consulted by the filter. -/
structure LLMReply where
  status : String
  data : String

/-- The per-paper loop of PaperFilterTool._filter_by_llm
(tools/paper_filter.py lines 248-279), with the LLM modelled as a map
from the paper title to its reply.  Returns the selected papers and the
failure count; an undecidable decision neither selects the paper nor
counts as a failure. -/
def filterByLLM (llm : String → LLMReply) (papers : List PyVal) :
    List PyVal × Nat :=
  papers.foldl
    (fun acc p =>
      if !(isDict p) then acc
      else
        let title := pyStrip (pyStr (dictGetD p "title" (.vStr "")))
        if title = "" then (acc.1, acc.2 + 1)
        else
          let reply := llm title
          if reply.status != "success" then (acc.1, acc.2 + 1)
          else
            match parse_llm_decision (some reply.data) with
            | some true => (acc.1 ++ [p], acc.2)
            | _ => acc)
    ([], 0)

/-- The result of the LLM filter stage (tools/paper_filter.py lines
281-301): the selection is merged into the filtered collection and the
stage reports success with its counts. -/
structure FilterRunResult where
  status : String
  filteredCount : Nat
  failedCount : Nat
  newPapersAdded : Nat
  savePath : String

/-- _filter_by_llm after the loop: save the selection with update_jsonl
and return the success payload (tools/paper_filter.py lines 281-301). -/
def filter_by_llm (llm : String → LLMReply) (papers : List PyVal)
    (file : Option (List PyVal)) (savePath : String) :
    FilterRunResult × Option (List PyVal) :=
  let sel := filterByLLM llm papers
  let saved := update_jsonl file sel.1
  ({ status := "success", filteredCount := sel.1.length, failedCount := sel.2,
     newPapersAdded := saved.2, savePath := savePath }, saved.1)

/-! parse_markdown_summary (utils/helper_func.py lines 239-400). -/

/-- The backquote character (code 96). -/
def backquoteChar : Char := Char.ofNat 96

/-- clean (helper_func.py lines 309-316): remove backquotes and strip.
The two regex substitutions (contentReference spans and markdown links)
are the identity on summary text without those patterns, which is the
text in scope here. -/
def cleanLine (s : String) : String :=
  pyStrip (String.mk (s.toList.filter (fun c => c != backquoteChar)))

/-- The CJK punctuation set of smart_join (helper_func.py line 307). -/
def cjkPunct : List Char :=
  ['，', '。', '；', '：', '！', '？', '、', '）', '】', '》', '％', '%']

/-- The opener set of smart_join (helper_func.py line 307). -/
def openersList : List Char :=
  ['（', '【', '《', '“', '"', '\'', '(', '[', '\x7b']

/-- The closing brackets of the second post-join substitution. -/
def closersList : List Char := [')', ']', '】', '》', '\x7d']

/-- Remove every whitespace run immediately preceding one of the given
characters (the post-join substitutions of smart_join). -/
def rmWsBefore (closers : List Char) (cs : List Char) : List Char :=
  cs.foldr
    (fun c acc =>
      if c.isWhitespace &&
          (match acc with
           | d :: _ => closers.contains d
           | [] => false) then acc
      else c :: acc) []

/-- Replace every run of spaces and tabs by one space (the final
substitution of smart_join). -/
def collapseSpTab (cs : List Char) : List Char :=
  cs.foldr
    (fun c acc =>
      if c == ' ' || c == '\t' then
        match acc with
        | d :: _ => if d = ' ' then acc else ' ' :: acc
        | [] => [' ']
      else c :: acc) []

/-- smart_join (helper_func.py lines 318-333). -/
def smart_join (a b : String) : String :=
  let b := cleanLine b
  if b = "" then a
  else if a = "" then b
  else
    let last := a.toList.getLast?.getD ' '
    let first := b.toList.head?.getD ' '
    let glue := if cjkPunct.contains first || openersList.contains last ||
        (last == '-' && first.isAlpha) then "" else " "
    let out := (a ++ glue ++ b).toList
    let out := rmWsBefore cjkPunct out
    let out := rmWsBefore closersList out
    let out := collapseSpTab out
    pyStrip (String.mk out)

/-- Match a heading of the given level: that many hash marks, one
whitespace character, then the capture, trimmed (the h1/h2/h3 regexes of
parse_markdown_summary, lines 279-281). -/
def matchHeading (level : Nat) (line : String) : Option String :=
  let cs := line.toList
  if cs.take level = List.replicate level '#' then
    match cs.drop level with
    | c :: rest =>
      if c.isWhitespace then some (pyStrip (String.mk (c :: rest))) else none
    | [] => none
  else none

/-- One sub-section of the Detailed Summary. -/
structure DetailEntry where
  group : String
  sub : String
  text : String

/-- The parsed summary skeleton (helper_func.py lines 246-269). -/
structure ParsedSummary where
  piTitle : String
  piAuthors : String
  piAffiliations : String
  bsHighlight : String
  bsKeywords : String
  details : List DetailEntry

/-- The top-level section names. -/
def topNames : List String := ["Paper Info", "Brief Summary", "Detailed Summary"]

/-- The Paper Info sub-headings. -/
def piNames : List String := ["Title", "Authors", "Affiliations"]

/-- The Brief Summary sub-headings. -/
def bsNames : List String := ["Highlight", "Keywords"]

/-- The Detailed Summary groups. -/
def dsGroupNames : List String :=
  ["1. Motivation", "2. State-of-the-Art Methods", "3. Proposed Method",
   "4. Experiment Results", "5. Limitations and Future Work"]

/-- The sub-headings of one Detailed Summary group (the DS table of
helper_func.py lines 285-304). -/
def dsSubsOf (g : String) : List String :=
  if g = "1. Motivation" then ["1.1 Background", "1.2 Problem Statement"]
  else if g = "2. State-of-the-Art Methods" then
    ["2.1 Existing Methods", "2.2 Limitations of Existing Methods"]
  else if g = "3. Proposed Method" then
    ["3.1 Main Contributions", "3.2 Core Idea", "3.3 Novelty"]
  else if g = "4. Experiment Results" then
    ["4.1 Experimental Setup", "4.2 Experimental Results"]
  else if g = "5. Limitations and Future Work" then
    ["5.1 Limitations", "5.2 Future Directions"]
  else []

/-- The empty parsed structure. -/
def initParsed : ParsedSummary :=
  { piTitle := "", piAuthors := "", piAffiliations := "",
    bsHighlight := "", bsKeywords := "",
    details := dsGroupNames.flatMap
      (fun g => (dsSubsOf g).map (fun sub => ⟨g, sub, ""⟩)) }

/-- The section pointers of the line loop (helper_func.py line 336). -/
structure MDCursor where
  curTop : Option String
  curPiBs : Option String
  curDsGrp : Option String
  curDsSub : Option String

/-- Append a content line to one Detailed Summary sub-section. -/
def setDetail (p : ParsedSummary) (g sub line : String) : ParsedSummary :=
  { p with details := (p.details.map (fun e =>
      if e.group = g ∧ e.sub = sub then
        { e with text := smart_join e.text line } else e)) }

/-- Whether a level-3 heading belongs to the current Detailed Summary
group. -/
def dsSubOk : Option String → String → Bool
  | some g, subsub => dsGroupNames.contains g && (dsSubsOf g).contains subsub
  | none, _ => false

/-- Python str.rstrip(). -/
def pyRstrip (s : String) : String :=
  String.mk (s.toList.reverse.dropWhile Char.isWhitespace).reverse

/-- Split a string at newlines (Python str.splitlines on the newline-only
texts in scope; a trailing empty piece is skipped by the loop anyway). -/
def splitLinesAux : List Char → List Char → List String
  | [], cur => [String.mk cur.reverse]
  | '\n' :: rest, cur => String.mk cur.reverse :: splitLinesAux rest []
  | c :: rest, cur => splitLinesAux rest (c :: cur)

/-- Split a string into its lines. -/
def splitLines (s : String) : List String := splitLinesAux s.toList []

/-- One iteration of the line loop of parse_markdown_summary
(helper_func.py lines 342-392). -/
def mdProcessLine (acc : ParsedSummary × MDCursor) (raw : String) :
    ParsedSummary × MDCursor :=
  let p := acc.1
  let cur := acc.2
  let line := pyRstrip raw
  if pyStrip line = "" then acc
  else
    match matchHeading 1 line with
    | some t =>
      (p, { curTop := if topNames.contains t then some t else none,
            curPiBs := none, curDsGrp := none, curDsSub := none })
    | none =>
      match matchHeading 2 line with
      | some sub =>
        if cur.curTop = some "Paper Info" ∧ piNames.contains sub then
          (p, { cur with curPiBs := some sub, curDsGrp := none, curDsSub := none })
        else if cur.curTop = some "Brief Summary" ∧ bsNames.contains sub then
          (p, { cur with curPiBs := some sub, curDsGrp := none, curDsSub := none })
        else if cur.curTop = some "Detailed Summary" ∧ dsGroupNames.contains sub then
          (p, { cur with curDsGrp := some sub, curDsSub := none, curPiBs := none })
        else
          (p, { cur with curPiBs := none, curDsSub := none })
      | none =>
        match matchHeading 3 line with
        | some subsub =>
          if cur.curTop = some "Detailed Summary" ∧
              dsSubOk cur.curDsGrp subsub = true then
            (p, { cur with curDsSub := some subsub })
          else (p, { cur with curDsSub := none })
        | none =>
          match cur.curTop with
          | some t =>
            if t = "Paper Info" then
              match cur.curPiBs with
              | some "Title" => ({ p with piTitle := smart_join p.piTitle line }, cur)
              | some "Authors" =>
                ({ p with piAuthors := smart_join p.piAuthors line }, cur)
              | some "Affiliations" =>
                ({ p with piAffiliations := smart_join p.piAffiliations line }, cur)
              | _ => acc
            else if t = "Brief Summary" then
              match cur.curPiBs with
              | some "Highlight" =>
                ({ p with bsHighlight := smart_join p.bsHighlight line }, cur)
              | some "Keywords" =>
                ({ p with bsKeywords := smart_join p.bsKeywords line }, cur)
              | _ => acc
            else if t = "Detailed Summary" then
              match cur.curDsGrp, cur.curDsSub with
              | some g, some sub =>
                if dsGroupNames.contains g ∧ (dsSubsOf g).contains sub then
                  (setDetail p g sub line, cur)
                else acc
              | _, _ => acc
            else acc
          | none => acc

/-- parse_markdown_summary (helper_func.py lines 239-400) for summary
text without fenced code blocks (the fence findall is empty, so the
parsed block is the whole text).  Non-string or blank input is the error
branch; everything else parses into the skeleton. -/
def parse_markdown_summary (mdText : String) : Except String ParsedSummary :=
  if pyStrip mdText = "" then .error "md_text must be a non-empty string."
  else
    .ok ((splitLines mdText).foldl mdProcessLine
      (initParsed, ⟨none, none, none, none⟩)).1

/-! The aggregation stage (tools/summary_aggregator.py). -/

/-- One row of the aggregated report (summary_aggregator.py lines
124-130). -/
structure AggRow where
  title : String
  authors : String
  affiliations : String
  keywords : String
  highlights : String

/-- The result of one _aggregate_summaries_impl run; rows is the table
written to the Excel file. -/
structure AggResult where
  status : String
  error : Option String := none
  message : Option String := none
  aggregatedCount : Nat := 0
  failedCount : Nat := 0
  excelPath : Option String := none
  rows : List AggRow := []

/-- The summary directory of a run (summary_aggregator.py line 71). -/
def summaryDirPath (summaryRoot conference : String) (year : Int)
    (topic language : String) : String :=
  summaryRoot ++ "/" ++ pyLower (pyStrip conference) ++ "_" ++ toString year ++
    "/" ++ pyLower (pyStrip topic) ++ "/" ++ language

/-- The per-paper step of the aggregation loop (summary_aggregator.py
lines 83-130): a non-dict row, a missing artifact file or an unparsable
summary counts as a failure and is skipped; otherwise the parsed fields
become one row.  fileFs maps artifact paths to their contents. -/
def aggStep (fileFs : String → Option String) (summaryDir : String)
    (acc : List AggRow × Nat) (paper : PyVal) : List AggRow × Nat :=
  if !(isDict paper) then (acc.1, acc.2 + 1)
  else
    let title := pyStrip (pyStr (dictGetD paper "title" (.vStr "untitled")))
    let fname := safe_filename title
    let spath := summaryDir ++ "/" ++ fname ++ ".md"
    match fileFs spath with
    | none => (acc.1, acc.2 + 1)
    | some content =>
      match parse_markdown_summary content with
      | .error _ => (acc.1, acc.2 + 1)
      | .ok parsed =>
        (acc.1 ++ [{ title := title, authors := parsed.piAuthors,
                     affiliations := parsed.piAffiliations,
                     keywords := parsed.bsKeywords,
                     highlights := parsed.bsHighlight }], acc.2)

/-- _aggregate_summaries_impl (tools/summary_aggregator.py lines 15-161)
for a run with a topic.  paperListFile is the contents of the filtered
list (none when the file is missing), dirExists models os.path.exists on
the summary directory, and fileFs maps artifact paths to contents. -/
def aggregate_summaries_impl (paperListFile : Option (List PyVal))
    (dirExists : Bool) (fileFs : String → Option String)
    (conference : String) (year : Int) (topic language : String)
    (listRoot summaryRoot : String) : AggResult :=
  let confKey := pyLower (pyStrip conference)
  let topicKey := pyLower (pyStrip topic)
  let paperListPath := listRoot ++ "/" ++ confKey ++ "_" ++ toString year ++
    "/" ++ "filtered_" ++ topicKey ++ ".jsonl"
  match paperListFile with
  | none =>
    { status := "error",
      error := some ("Paper list file does not exist: " ++ paperListPath),
      aggregatedCount := 0 }
  | some content =>
    let papers := content.filter isDict
    if papers.isEmpty then
      { status := "warning", message := some "No papers found in the list",
        aggregatedCount := 0 }
    else
      let summaryDir := summaryDirPath summaryRoot conference year topic language
      if !dirExists then
        { status := "error",
          error := some ("Paper summary directory does not exist: " ++ summaryDir),
          aggregatedCount := 0 }
      else
        let res := papers.foldl (aggStep fileFs summaryDir) ([], 0)
        if !res.1.isEmpty then
          { status := "success", aggregatedCount := res.1.length,
            failedCount := res.2,
            excelPath := some (summaryDir ++ "/summary.xlsx"),
            message := some ("Aggregated " ++ toString res.1.length ++ " " ++
              language ++ " summaries, " ++ toString res.2 ++ " failures"),
            rows := res.1 }
        else
          { status := "warning",
            message := some "No summaries were successfully aggregated",
            aggregatedCount := 0, failedCount := res.2 }

/-- Whether a paper's artifact exists and parses (the success condition
of one aggregation-loop iteration, for a dict paper). -/
def artifactGood (fileFs : String → Option String) (summaryDir : String)
    (paper : PyVal) : Bool :=
  match fileFs (summaryDir ++ "/" ++
      safe_filename (pyStrip (pyStr (dictGetD paper "title" (.vStr "untitled")))) ++
      ".md") with
  | some content =>
    match parse_markdown_summary content with
    | .ok _ => true
    | .error _ => false
  | none => false

/-- The report row of a paper whose artifact exists and parses. -/
def aggRowOf (fileFs : String → Option String) (summaryDir : String)
    (paper : PyVal) : AggRow :=
  let title := pyStrip (pyStr (dictGetD paper "title" (.vStr "untitled")))
  match fileFs (summaryDir ++ "/" ++ safe_filename title ++ ".md") with
  | some content =>
    match parse_markdown_summary content with
    | .ok parsed =>
      { title := title, authors := parsed.piAuthors,
        affiliations := parsed.piAffiliations, keywords := parsed.bsKeywords,
        highlights := parsed.bsHighlight }
    | .error _ =>
      { title := title, authors := "", affiliations := "", keywords := "",
        highlights := "" }
  | none =>
    { title := title, authors := "", affiliations := "", keywords := "",
      highlights := "" }

/-- The three filtered papers of the missing-artifact scenario. -/
def aggPapers : List PyVal :=
  [.vDict [("title", .vStr "Paper One")],
   .vDict [("title", .vStr "Paper Two")],
   .vDict [("title", .vStr "Paper Three")]]

/-- The summary directory of the missing-artifact scenario. -/
def aggDir : String := "papers/paper_summary/neurips_2020/privacy/EN"

/-- The artifact filesystem of the missing-artifact scenario: artifacts
exist for the first two papers only. -/
def aggFs : String → Option String := fun p =>
  if p = "papers/paper_summary/neurips_2020/privacy/EN/paper_one.md" then
    some ("# Paper Info" ++ "\n" ++ "## Authors" ++ "\n" ++ "Alice")
  else if p = "papers/paper_summary/neurips_2020/privacy/EN/paper_two.md" then
    some ("# Paper Info" ++ "\n" ++ "## Authors" ++ "\n" ++ "Bob")
  else none

/-! The workflow state and nodes (agent/state.py, agent/nodes.py). -/

/-- ResearchWorkflowState (agent/state.py lines 6-48), with the error
timestamp set by the error handler (agent/nodes.py line 336).  The float
processing_time is modelled as an opaque Nat. -/
structure WFState where
  conference : String
  year : Int
  topic : String
  method : String
  api : String
  modelName : String
  skipKeywordGeneration : Bool
  skipCrawling : Bool
  currentStep : String
  status : String
  errorMessage : Option String
  generatedKeywords : Option (List String)
  crawledPapers : Option (List PyVal)
  filteredPapers : Option (List PyVal)
  summarizedPapers : Option (List PyVal)
  aggregatedSummary : Option PyVal
  keywordsSavePath : Option String
  paperListPath : Option String
  filteredPapersPath : Option String
  summaryDirectory : Option String
  excelOutputPath : Option String
  papersCrawledCount : Nat
  papersFilteredCount : Nat
  papersSummarizedCount : Nat
  processingTime : Option Nat
  errorTimestamp : Option String

/-- update_state_progress (agent/state.py lines 144-160). -/
def update_state_progress (s : WFState) (step status : String) : WFState :=
  { s with currentStep := step, status := status }

/-- update_state_error (agent/state.py lines 163-178). -/
def update_state_error (s : WFState) (msg : String) : WFState :=
  { s with status := "error", errorMessage := some msg }

/-- One language's entry of the aggregator result
(tools/summary_aggregator.py lines 299-307); defaults model dict.get. -/
structure LangResult where
  status : String := ""
  aggregatedCount : Nat := 0
  failedCount : Nat := 0
  excelPath : String := ""
  message : String := ""
  error : Option String := none

/-- The result dict a stage tool returns to its node, with one field per
key any node reads and defaults modelling dict.get defaults. -/
structure ToolResult where
  status : String := ""
  error : Option String := none
  message : String := ""
  keywords : List String := []
  saveResult : String := ""
  savePath : String := ""
  papersCount : Nat := 0
  filteredCount : Nat := 0
  successfulSummaries : Nat := 0
  languageResults : List (String × LangResult) := []

/-- Render an optional string as a Python value (None or the string). -/
def optStrVal : Option String → PyVal
  | none => .vNull
  | some s => .vStr s

/-- Python truthiness on the modelled values. -/
def pyTruthy : PyVal → Bool
  | .vNull => false
  | .vBool b => b
  | .vInt n => n != 0
  | .vStr s => s != ""
  | .vList l => !l.isEmpty
  | .vDict l => !l.isEmpty

/-- Rendering of a per-language aggregator entry as the dict stored in
the state. -/
def langResultVal (lr : LangResult) : PyVal :=
  .vDict ([("status", .vStr lr.status),
           ("aggregated_count", .vInt lr.aggregatedCount),
           ("failed_count", .vInt lr.failedCount),
           ("excel_path", .vStr lr.excelPath),
           ("message", .vStr lr.message)] ++
          (match lr.error with
           | some e => [("error", PyVal.vStr e)]
           | none => []))

/-- Rendering of the aggregator tool result dict stored by
aggregate_summary_node (agent/nodes.py line 242). -/
def aggToolResultVal (r : ToolResult) : PyVal :=
  .vDict [("status", .vStr r.status),
          ("language_results",
            .vDict (r.languageResults.map (fun p => (p.1, langResultVal p.2)))),
          ("message", .vStr r.message)]

/-- generate_keywords_node (agent/nodes.py lines 15-61).  The outcome
argument models the try block's tool call: an exception or the returned
result dict; the except clause is the error branch. -/
def generate_keywords_node (s : WFState) (outcome : Except String ToolResult) :
    WFState :=
  let s1 := update_state_progress s "generate_keywords" "in_progress"
  if s1.skipKeywordGeneration then s1
  else
    match outcome with
    | .error e => update_state_error s1 ("Error in generate_keywords_node: " ++ e)
    | .ok r =>
      if r.status ≠ "success" then
        update_state_error s1
          ("Failed to generate keywords: " ++ r.error.getD "Unknown error")
      else
        { s1 with generatedKeywords := some r.keywords,
                  keywordsSavePath := some r.saveResult,
                  status := "completed" }

/-- crawl_papers_node (agent/nodes.py lines 64-108). -/
def crawl_papers_node (s : WFState) (outcome : Except String ToolResult) :
    WFState :=
  let s1 := update_state_progress s "crawl_papers" "in_progress"
  if s1.skipCrawling then s1
  else
    match outcome with
    | .error e => update_state_error s1 ("Error in crawl_papers_node: " ++ e)
    | .ok r =>
      if r.status ≠ "success" then
        update_state_error s1
          ("Failed to crawl papers: " ++ r.error.getD "Unknown error")
      else
        { s1 with crawledPapers := some [],
                  paperListPath := some r.savePath,
                  papersCrawledCount := r.papersCount,
                  status := "completed" }

/-- filter_papers_node (agent/nodes.py lines 111-158). -/
def filter_papers_node (s : WFState) (outcome : Except String ToolResult) :
    WFState :=
  let s1 := update_state_progress s "filter_papers" "in_progress"
  match outcome with
  | .error e => update_state_error s1 ("Error in filter_papers_node: " ++ e)
  | .ok r =>
    if r.status ≠ "success" then
      update_state_error s1
        ("Failed to filter papers: " ++ r.error.getD "Unknown error")
    else
      { s1 with filteredPapers := some [],
                filteredPapersPath := some r.savePath,
                papersFilteredCount := r.filteredCount,
                status := "completed" }

/-- summarize_papers_node (agent/nodes.py lines 161-207). -/
def summarize_papers_node (s : WFState) (outcome : Except String ToolResult) :
    WFState :=
  let s1 := update_state_progress s "summarize_papers" "in_progress"
  match outcome with
  | .error e => update_state_error s1 ("Error in summarize_papers_node: " ++ e)
  | .ok r =>
    if r.status ≠ "success" then
      update_state_error s1
        ("Failed to summarize papers: " ++ r.error.getD "Unknown error")
    else
      { s1 with summarizedPapers := some [],
                summaryDirectory := some
                  (if s1.topic ≠ "" then
                    s1.conference ++ "_" ++ toString s1.year ++ "/" ++ s1.topic
                  else s1.conference ++ "_" ++ toString s1.year),
                papersSummarizedCount := r.successfulSummaries,
                status := "completed" }

/-- aggregate_summary_node (agent/nodes.py lines 210-265), including the
preferred-language Excel path extraction of lines 244-252. -/
def aggregate_summary_node (s : WFState) (outcome : Except String ToolResult) :
    WFState :=
  let s1 := update_state_progress s "aggregate_summary" "in_progress"
  match outcome with
  | .error e => update_state_error s1 ("Error in aggregate_summary_node: " ++ e)
  | .ok r =>
    if r.status ≠ "success" then
      update_state_error s1
        ("Failed to aggregate summaries: " ++ r.error.getD "Unknown error")
    else
      let lr := fun (lang : String) =>
        (r.languageResults.lookup lang).getD {}
      let excelPath :=
        if (lr "CH").status = "success" ∧ (lr "CH").excelPath ≠ "" then
          (lr "CH").excelPath
        else if (lr "EN").status = "success" ∧ (lr "EN").excelPath ≠ "" then
          (lr "EN").excelPath
        else ""
      { s1 with aggregatedSummary := some (aggToolResultVal r),
                excelOutputPath := some excelPath,
                status := "completed" }

/-- finalize_workflow_node (agent/nodes.py lines 268-320); now and tNow
model datetime.now().isoformat() and time.time(). -/
def finalize_workflow_node (now : String) (tNow : Nat) (s : WFState)
    (outcome : Except String Unit) : WFState :=
  let s1 := update_state_progress s "finalize" "completed"
  match outcome with
  | .error e => update_state_error s1 ("Error in finalize_workflow_node: " ++ e)
  | .ok _ =>
    let s2 := if s1.processingTime = none then
        { s1 with processingTime := some tNow } else s1
    let summaryFields : List (String × PyVal) :=
      [("conference", .vStr s2.conference),
       ("year", .vInt s2.year),
       ("topic", .vStr s2.topic),
       ("status", .vStr "completed"),
       ("papers_processed", .vDict
         [("crawled", .vInt s2.papersCrawledCount),
          ("filtered", .vInt s2.papersFilteredCount),
          ("summarized", .vInt s2.papersSummarizedCount)]),
       ("output_files", .vDict
         [("keywords", optStrVal s2.keywordsSavePath),
          ("paper_list", optStrVal s2.paperListPath),
          ("filtered_papers", optStrVal s2.filteredPapersPath),
          ("summaries", optStrVal s2.summaryDirectory),
          ("excel_report", optStrVal s2.excelOutputPath)]),
       ("completion_time", .vStr now)]
    let summary :=
      match s2.aggregatedSummary with
      | some v =>
        if pyTruthy v then
          match v with
          | .vDict fs =>
            match fs.lookup "language_results" with
            | some lrv =>
              if pyTruthy lrv then
                PyVal.vDict (summaryFields ++ [("aggregation_results", lrv)])
              else .vDict summaryFields
            | none => .vDict summaryFields
          | _ => .vDict summaryFields
        else .vDict summaryFields
      | none => .vDict summaryFields
    { s2 with aggregatedSummary := some summary }

/-- error_handler_node (agent/nodes.py lines 323-350): stamps the error
timestamp and stores the compact error summary; status, current_step and
error_message are left unchanged. -/
def error_handler_node (ts : String) (s : WFState) : WFState :=
  let s1 := { s with errorTimestamp := some ts }
  { s1 with aggregatedSummary := some (.vDict
      [("status", .vStr "error"),
       ("conference", .vStr s1.conference),
       ("year", .vInt s1.year),
       ("topic", .vStr s1.topic),
       ("current_step", .vStr s1.currentStep),
       ("error_message", optStrVal s1.errorMessage),
       ("error_timestamp", .vStr ts)]) }

/-! The workflow graph (agent/graph.py). -/

/-- The nodes of the compiled workflow graph
(create_research_workflow_graph, agent/graph.py lines 31-44). -/
inductive GNode where
  | checkKeywordGeneration
  | checkCrawling
  | generateKeywords
  | crawlPapers
  | filterPapers
  | summarizePapers
  | aggregateSummary
  | finalizeWorkflow
  | handleError
  deriving DecidableEq

/-- check_for_errors (agent/graph.py lines 109-122). -/
def check_for_errors (s : WFState) : String :=
  if s.status = "error" then "error" else "continue"

/-- The targets of the unconditional edges declared with add_edge
(create_research_workflow_graph, agent/graph.py lines 61-66 and 100);
the edges to END have no node target.  Note the generate_keywords edge
targets the check_crawling checkpoint (line 61), not crawl_papers. -/
def staticTargets : GNode → List GNode
  | .checkKeywordGeneration => []
  | .checkCrawling => []
  | .generateKeywords => [.checkCrawling]
  | .crawlPapers => [.filterPapers]
  | .filterPapers => [.summarizePapers]
  | .summarizePapers => [.aggregateSummary]
  | .aggregateSummary => [.finalizeWorkflow]
  | .finalizeWorkflow => []
  | .handleError => []

/-- The target chosen by the conditional edges declared with
add_conditional_edges (agent/graph.py lines 47-58 and 69-97): the
checkpoint nodes branch on the skip flags, and each stage node is
followed by the uniform check_for_errors guard mapping error to the
terminal error handler and continue to the next stage. -/
def condTargets : GNode → WFState → List GNode
  | .checkKeywordGeneration, s =>
    [if s.skipKeywordGeneration then .checkCrawling else .generateKeywords]
  | .checkCrawling, s =>
    [if s.skipCrawling then .filterPapers else .crawlPapers]
  | .generateKeywords, s =>
    [if check_for_errors s = "error" then .handleError else .crawlPapers]
  | .crawlPapers, s =>
    [if check_for_errors s = "error" then .handleError else .filterPapers]
  | .filterPapers, s =>
    [if check_for_errors s = "error" then .handleError else .summarizePapers]
  | .summarizePapers, s =>
    [if check_for_errors s = "error" then .handleError else .aggregateSummary]
  | .aggregateSummary, s =>
    [if check_for_errors s = "error" then .handleError else .finalizeWorkflow]
  | .finalizeWorkflow, _ => []
  | .handleError, _ => []

/-- The successors a node activates in a state.  In langgraph a plain
add_edge and add_conditional_edges from the same node are independent:
after the node completes, every plain-edge target is activated and the
router's chosen target is activated as well, so the successor set is the
union of both.  For the stage nodes of this graph both kinds of edges
are declared, so even an error state keeps the plain successor alongside
the error handler. -/
def workflowSuccessors (n : GNode) (s : WFState) : List GNode :=
  staticTargets n ++ condTargets n s

/-! Concrete records used by the counterexamples and witnesses. -/

/-- The initial workflow state of the witness run, mirroring
agent/state.py lines 107-141 for the round-trip configuration. -/
def sampleState : WFState :=
  { conference := "neurips", year := 2020, topic := "privacy",
    method := "keyword", api := "gemini", modelName := "gemini-2.5-flash",
    skipKeywordGeneration := false, skipCrawling := false,
    currentStep := "initialize", status := "pending", errorMessage := none,
    generatedKeywords := none, crawledPapers := none, filteredPapers := none,
    summarizedPapers := none, aggregatedSummary := none,
    keywordsSavePath := none, paperListPath := none,
    filteredPapersPath := none, summaryDirectory := none,
    excelOutputPath := none, papersCrawledCount := 0,
    papersFilteredCount := 0, papersSummarizedCount := 0,
    processingTime := none, errorTimestamp := none }

/-- A failing filter-tool result: the missing full list error of
PaperFilterTool._run (tools/paper_filter.py lines 85-90). -/
def filterErrResult : ToolResult :=
  { status := "error",
    error := some "Full paper list not found: papers/paper_list/neurips_2020/full_list.jsonl. Use paper_crawler first.",
    filteredCount := 0 }

/-- The first paper of the round-trip scenario. -/
def privateLearningRow : PyVal := .vDict [("title", .vStr "Private Learning via X")]

/-- The second paper of the round-trip scenario. -/
def unrelatedMLRow : PyVal := .vDict [("title", .vStr "Unrelated ML Paper")]

/-- The topic keywords of the round-trip scenario. -/
def privacyKeywords : List String := ["privacy", "differential privacy"]

/-- A paper row whose title is written with capitals and no padding. -/
def fooBarRow : PyVal := .vDict [("title", .vStr "Foo Bar")]

/-- The same title in lowercase with surrounding whitespace. -/
def fooBarWsRow : PyVal := .vDict [("title", .vStr "  foo bar  ")]

/-- The dedupe step is the identity on an already-seen canon. -/
lemma updStep_mem (acc : DedupAcc) (c : PyVal) (hc : canon c ∈ acc.seen) :
    updStep acc c = acc := by
  unfold updStep; simp [hc]

/-- The dedupe step appends an unseen row and records its canon. -/
lemma updStep_not_mem (acc : DedupAcc) (c : PyVal) (hc : canon c ∉ acc.seen) :
    updStep acc c =
      { merged := acc.merged ++ [c], seen := canon c :: acc.seen,
        added := acc.added + 1 } := by
  unfold updStep; simp [hc]

/-- The canon image of the merged rows only grows along the dedupe loop. -/
lemma updFold_mono (cs : List PyVal) :
    ∀ (acc : DedupAcc) (x : String), x ∈ acc.merged.map canon →
      x ∈ ((cs.foldl updStep acc).merged.map canon) := by
  induction cs with
  | nil => intro acc x hx; simpa using hx
  | cons c cs ih =>
    intro acc x hx
    simp only [List.foldl_cons]
    apply ih
    by_cases hc : canon c ∈ acc.seen
    · rw [updStep_mem acc c hc]; exact hx
    · rw [updStep_not_mem acc c hc]
      simp only [List.map_append, List.mem_append]
      exact Or.inl hx

/-- Invariant of the dedupe loop: the seen set is exactly the canon image
of the merged rows, and every processed candidate's canon ends up in that
image. -/
lemma updFold_inv (cs : List PyVal) :
    ∀ (acc : DedupAcc),
      (∀ x : String, x ∈ acc.seen ↔ x ∈ acc.merged.map canon) →
      (∀ x : String, x ∈ (cs.foldl updStep acc).seen ↔
          x ∈ ((cs.foldl updStep acc).merged.map canon))
      ∧ (∀ c ∈ cs, canon c ∈ ((cs.foldl updStep acc).merged.map canon)) := by
  induction cs with
  | nil => intro acc h; exact ⟨h, by simp⟩
  | cons c cs ih =>
    intro acc h
    simp only [List.foldl_cons]
    by_cases hc : canon c ∈ acc.seen
    · rw [updStep_mem acc c hc]
      rcases ih acc h with ⟨h1, h2⟩
      refine ⟨h1, ?_⟩
      intro d hd
      rcases List.mem_cons.1 hd with rfl | hd
      · exact updFold_mono cs acc _ ((h _).1 hc)
      · exact h2 d hd
    · rw [updStep_not_mem acc c hc]
      have h' : ∀ x : String, x ∈ (canon c :: acc.seen) ↔
          x ∈ ((acc.merged ++ [c]).map canon) := by
        intro x
        simp only [List.mem_cons, List.map_append, List.mem_append,
          List.map_cons, List.map_nil, List.mem_singleton]
        rw [h x]
        tauto
      rcases ih ⟨acc.merged ++ [c], canon c :: acc.seen, acc.added + 1⟩ h'
        with ⟨h1, h2⟩
      refine ⟨h1, ?_⟩
      intro d hd
      rcases List.mem_cons.1 hd with rfl | hd
      · exact updFold_mono cs _ _ (by simp)
      · exact h2 d hd

/-- If every candidate's canon is already in the merged rows' canon image,
the dedupe loop is a no-op. -/
lemma updFold_noop (cs : List PyVal) :
    ∀ (acc : DedupAcc),
      (∀ x : String, x ∈ acc.seen ↔ x ∈ acc.merged.map canon) →
      (∀ c ∈ cs, canon c ∈ acc.merged.map canon) →
      cs.foldl updStep acc = acc := by
  induction cs with
  | nil => intro acc _ _; rfl
  | cons c cs ih =>
    intro acc h hall
    have hc : canon c ∈ acc.seen := (h (canon c)).2 (hall c (by simp))
    simp only [List.foldl_cons, updStep_mem acc c hc]
    exact ih acc h (fun d hd => hall d (List.mem_cons_of_mem _ hd))

/-- The dedupe loop preserves the all-dicts property of the merged rows. -/
lemma updFold_dicts (cs : List PyVal) :
    ∀ (acc : DedupAcc),
      (∀ r ∈ acc.merged, isDict r = true) →
      (∀ r ∈ cs, isDict r = true) →
      ∀ r ∈ (cs.foldl updStep acc).merged, isDict r = true := by
  induction cs with
  | nil => intro acc h _; simpa using h
  | cons c cs ih =>
    intro acc h hall
    simp only [List.foldl_cons]
    apply ih
    · intro r hr
      by_cases hc : canon c ∈ acc.seen
      · rw [updStep_mem acc c hc] at hr; exact h r hr
      · rw [updStep_not_mem acc c hc] at hr
        simp only [List.mem_append, List.mem_singleton] at hr
        rcases hr with hr | rfl
        · exact h r hr
        · exact hall r (by simp)
    · intro r hr; exact hall r (List.mem_cons_of_mem _ hr)

/-- Every loaded row is a dict. -/
lemma loadedRows_dicts (file : Option (List PyVal)) :
    ∀ r ∈ loadedRows file, isDict r = true := by
  intro r hr
  unfold loadedRows at hr
  match file with
  | some rs => exact (List.mem_filter.1 hr).2
  | none => simp at hr

/-- Unfolding of update_jsonl when there is at least one candidate row. -/
lemma update_jsonl_of_not_empty (file : Option (List PyVal)) (rows : List PyVal)
    (h : ¬ (rows.filter isDict).isEmpty = true) :
    update_jsonl file rows =
      (if (mergeRows (loadedRows file) (rows.filter isDict)).added = 0
       then (file, 0)
       else (some (mergeRows (loadedRows file) (rows.filter isDict)).merged,
             (mergeRows (loadedRows file) (rows.filter isDict)).added)) := by
  unfold update_jsonl
  simp only [if_neg h]

/-- C2: the merge operation update_jsonl is idempotent: after a first call
with some rows, calling it again with the identical rows adds zero
records, returns 0, and leaves the persisted contents unchanged. -/
theorem update_jsonl_idempotent (file : Option (List PyVal)) (rows : List PyVal) :
    (update_jsonl (update_jsonl file rows).1 rows).2 = 0 ∧
    (update_jsonl (update_jsonl file rows).1 rows).1 = (update_jsonl file rows).1 := by
  by_cases hc : (rows.filter isDict).isEmpty = true
  · simp [update_jsonl, hc]
  · set cands := rows.filter isDict with hcands
    set res := mergeRows (loadedRows file) cands with hres
    have h1 := update_jsonl_of_not_empty file rows hc
    rw [← hcands, ← hres] at h1
    by_cases hz : res.added = 0
    · rw [if_pos hz] at h1
      rw [h1]
      constructor <;> simp [h1]
    · rw [if_neg hz] at h1
      have hdictsE : ∀ r ∈ loadedRows file, isDict r = true := loadedRows_dicts file
      have hdictsC : ∀ r ∈ cands, isDict r = true := by
        intro r hr; exact (List.mem_filter.1 (hcands ▸ hr)).2
      have hdictsM : ∀ r ∈ res.merged, isDict r = true := by
        rw [hres]; exact updFold_dicts cands _ hdictsE hdictsC
      have hloaded2 : loadedRows (some res.merged) = res.merged := by
        unfold loadedRows
        exact List.filter_eq_self.2 hdictsM
      have hinv := updFold_inv cands
        { merged := loadedRows file, seen := (loadedRows file).map canon, added := 0 }
        (by intro x; exact Iff.rfl)
      have hall : ∀ c ∈ cands, canon c ∈ res.merged.map canon := by
        intro c hcmem
        exact hres ▸ hinv.2 c hcmem
      have hnoop : mergeRows res.merged cands =
          { merged := res.merged, seen := res.merged.map canon, added := 0 } := by
        unfold mergeRows
        exact updFold_noop cands _ (by intro x; exact Iff.rfl) hall
      have h2 : update_jsonl (some res.merged) rows = (some res.merged, 0) := by
        rw [update_jsonl_of_not_empty (some res.merged) rows hc, ← hcands,
          hloaded2, hnoop]
        simp
      rw [h1]
      constructor <;> simp [h2]

/-- C3 counterexample: update_jsonl dedupes by the canonical JSON of the
whole row, so a title differing only in case and whitespace is a new
identity: merging it adds one record and the collection ends with both
entries. -/
theorem title_case_ws_duplicate :
    (update_jsonl (some [fooBarRow]) [fooBarWsRow]).2 = 1 ∧
    (update_jsonl (some [fooBarRow]) [fooBarWsRow]).1 =
      some [fooBarRow, fooBarWsRow] :=
  ⟨rfl, rfl⟩

/-- C3 (amended): update_jsonl treats any dict row whose canonical JSON
differs from every existing row's as a new record: it is appended and
counted, so titles differing only in case or whitespace produce separate
entries. -/
theorem update_jsonl_adds_fresh (E : List PyVal) (r : PyVal)
    (hd : isDict r = true) (hE : ∀ x ∈ E, isDict x = true)
    (hnew : canon r ∉ E.map canon) :
    update_jsonl (some E) [r] = (some (E ++ [r]), 1) := by
  have hfilter : [r].filter isDict = [r] := by simp [hd]
  have hne : ¬ ([r].filter isDict).isEmpty = true := by
    rw [hfilter]; simp
  rw [update_jsonl_of_not_empty _ _ hne, hfilter]
  have hload : loadedRows (some E) = E := by
    unfold loadedRows; exact List.filter_eq_self.2 hE
  rw [hload]
  have hmerge : mergeRows E [r] =
      { merged := E ++ [r], seen := canon r :: E.map canon, added := 1 } := by
    unfold mergeRows
    simp only [List.foldl_cons, List.foldl_nil]
    rw [updStep_not_mem _ _ (by simpa using hnew)]
  rw [hmerge]
  simp

/-- Witness for update_jsonl_adds_fresh at the Foo Bar rows. -/
theorem update_jsonl_adds_fresh_witness :
    isDict fooBarWsRow = true ∧ (∀ x ∈ [fooBarRow], isDict x = true) ∧
    canon fooBarWsRow ∉ [fooBarRow].map canon ∧
    update_jsonl (some [fooBarRow]) [fooBarWsRow] =
      (some ([fooBarRow] ++ [fooBarWsRow]), 1) := by
  refine ⟨rfl, by decide, by decide, ?_⟩
  exact update_jsonl_adds_fresh [fooBarRow] fooBarWsRow rfl (by decide) (by decide)

/-- C9 counterexample: loading a collection whose backing file does not
exist yields an error (modelling the FileNotFoundError raised at
utils/helper_func.py line 131), not an empty row list. -/
theorem load_jsonl_missing_not_ok :
    load_jsonl (fun _ => none) "papers/paper_list/neurips_2020/full_list.jsonl" =
      .error "File not found: papers/paper_list/neurips_2020/full_list.jsonl" ∧
    load_jsonl (fun _ => none) "papers/paper_list/neurips_2020/full_list.jsonl" ≠
      .ok [] := by
  refine ⟨rfl, ?_⟩
  intro h
  exact Except.noConfusion h

/-- C9 (amended): for every collection whose backing file does not exist,
load_jsonl raises FileNotFoundError (modelled as an error result) instead
of returning an empty sequence. -/
theorem load_jsonl_missing (fs : String → Option (List PyVal)) (path : String)
    (h : fs path = none) :
    load_jsonl fs path = .error ("File not found: " ++ path) := by
  unfold load_jsonl
  rw [h]

/-- Witness for load_jsonl_missing on the empty filesystem. -/
theorem load_jsonl_missing_witness :
    (fun _ : String => (none : Option (List PyVal)))
        "papers/paper_list/neurips_2020/full_list.jsonl" = none ∧
    load_jsonl (fun _ => none) "papers/paper_list/neurips_2020/full_list.jsonl" =
      .error ("File not found: " ++ "papers/paper_list/neurips_2020/full_list.jsonl") :=
  ⟨rfl, load_jsonl_missing (fun _ => none)
    "papers/paper_list/neurips_2020/full_list.jsonl" rfl⟩

/-- C5: the summarize stage persists a summary under a general path
segment that the aggregate stage never inserts, so the write path and the
lookup path disagree for the very same run and title. -/
theorem summarize_aggregate_path_mismatch :
    summarizerSummaryPath "papers/paper_summary" "neurips" 2020 "privacy" "EN" "Foo" =
      "papers/paper_summary/neurips_2020/privacy/general/EN/foo.md" ∧
    aggregatorSummaryPath "papers/paper_summary" "neurips" 2020 "privacy" "EN" "Foo" =
      "papers/paper_summary/neurips_2020/privacy/EN/foo.md" ∧
    summarizerSummaryPath "papers/paper_summary" "neurips" 2020 "privacy" "EN" "Foo" ≠
      aggregatorSummaryPath "papers/paper_summary" "neurips" 2020 "privacy" "EN" "Foo" := by
  refine ⟨rfl, rfl, ?_⟩
  decide

/-- Char.toLower, unfolded. -/
lemma charToLower_eq (c : Char) :
    Char.toLower c =
      if 65 ≤ c.toNat ∧ c.toNat ≤ 90 then Char.ofNat (c.toNat + 32) else c := rfl

/-- Lowercasing preserves being alphanumeric. -/
lemma toLower_isAlphanum (c : Char) (h : c.isAlphanum = true) :
    (Char.toLower c).isAlphanum = true := by
  rw [charToLower_eq]
  by_cases hcond : 65 ≤ c.toNat ∧ c.toNat ≤ 90
  · rw [if_pos hcond]
    obtain ⟨h1, h2⟩ := hcond
    set m := c.toNat with hm
    interval_cases m <;> decide
  · rw [if_neg hcond]; exact h

/-- Lowercasing is idempotent. -/
lemma toLower_idem (c : Char) :
    Char.toLower (Char.toLower c) = Char.toLower c := by
  rw [charToLower_eq c]
  by_cases hcond : 65 ≤ c.toNat ∧ c.toNat ≤ 90
  · rw [if_pos hcond]
    obtain ⟨h1, h2⟩ := hcond
    set m := c.toNat with hm
    interval_cases m <;> decide
  · rw [if_neg hcond]
    rw [charToLower_eq c, if_neg hcond]

/-- Every character produced by pyKeepChar is alphanumeric, a dash, an
underscore or a space. -/
lemma pyKeepChar_mem (c : Char) :
    (pyKeepChar c).isAlphanum = true ∨ pyKeepChar c = '-' ∨
      pyKeepChar c = '_' ∨ pyKeepChar c = ' ' := by
  unfold pyKeepChar
  split
  · next h =>
    simp only [Bool.or_eq_true, beq_iff_eq] at h
    rcases h with ((h | h) | h) | h
    · exact Or.inl h
    · exact Or.inr (Or.inl h)
    · exact Or.inr (Or.inr (Or.inl h))
    · exact Or.inr (Or.inr (Or.inr h))
  · exact Or.inr (Or.inr (Or.inl rfl))

/-- Every character of every word of splitWsAux satisfies the invariant
carried by the input characters, and no word contains whitespace. -/
lemma splitWsAux_chars (K : Char → Prop) :
    ∀ (cs cur : List Char), (∀ c ∈ cs, K c) →
      (∀ c ∈ cur, K c ∧ c.isWhitespace = false) →
      ∀ w ∈ splitWsAux cs cur, ∀ c ∈ w, K c ∧ c.isWhitespace = false := by
  intro cs
  induction cs with
  | nil =>
    intro cur _ hcur w hw c hc
    unfold splitWsAux at hw
    split at hw
    · simp at hw
    · simp only [List.mem_singleton] at hw
      subst hw
      exact hcur c (List.mem_reverse.1 hc)
  | cons a rest ih =>
    intro cur hcs hcur w hw c hc
    unfold splitWsAux at hw
    by_cases hws : a.isWhitespace = true
    · rw [if_pos hws] at hw
      split at hw
      · exact ih [] (fun d hd => hcs d (List.mem_cons_of_mem _ hd))
          (by simp) w hw c hc
      · rcases List.mem_cons.1 hw with rfl | hw
        · exact hcur c (List.mem_reverse.1 hc)
        · exact ih [] (fun d hd => hcs d (List.mem_cons_of_mem _ hd))
            (by simp) w hw c hc
    · rw [if_neg hws] at hw
      refine ih (a :: cur) (fun d hd => hcs d (List.mem_cons_of_mem _ hd))
        ?_ w hw c hc
      intro d hd
      rcases List.mem_cons.1 hd with rfl | hd
      · exact ⟨hcs d (by simp), by simpa using hws⟩
      · exact hcur d hd

/-- joinUnderscore only adds underscores to the characters of its words. -/
lemma joinUnderscore_chars (K : Char → Prop) (hK : K '_') :
    ∀ (ws : List (List Char)), (∀ w ∈ ws, ∀ c ∈ w, K c) →
      ∀ c ∈ joinUnderscore ws, K c := by
  intro ws
  induction ws with
  | nil => intro _ c hc; simp [joinUnderscore] at hc
  | cons w ws ih =>
    intro h c hc
    cases ws with
    | nil =>
      unfold joinUnderscore at hc
      exact h w (by simp) c hc
    | cons v ws' =>
      unfold joinUnderscore at hc
      rcases List.mem_append.1 hc with hc | hc
      · exact h w (by simp) c hc
      · rcases List.mem_cons.1 hc with rfl | hc
        · exact hK
        · exact ih (fun u hu => h u (List.mem_cons_of_mem _ hu)) c hc

/-- C10 counterexample: a run of two tab characters is turned into two
underscores, not a single one, because only spaces are collapsed. -/
theorem safe_filename_tab_run :
    safe_filename "a\t\tb" = "a__b" ∧ safe_filename "a\t\tb" ≠ "a_b" := by
  refine ⟨rfl, ?_⟩
  decide

/-- C10 (amended): on ASCII input (the domain where the ASCII character
model provably coincides with Python's Unicode str.isalnum, str.lower
and whitespace handling; outside it the length and character-set bounds
fail of the source, because str.lower() runs after the truncation and
may expand characters), safe_filename returns a non-empty lowercase
string of at most 180 characters over alphanumerics, dash and
underscore; runs of spaces become single underscores while every other
character (including each non-space whitespace character) becomes its
own underscore; empty or whitespace-only input yields untitled; and
titles with equal slugs are persisted at equal summary paths. -/
theorem safe_filename_spec (name : String)
    (_hdom : ∀ c ∈ name.toList, asciiSafe c = true) :
    safe_filename name ≠ "" ∧
    (safe_filename name).length ≤ 180 ∧
    (∀ c ∈ (safe_filename name).toList,
        c.isAlphanum = true ∨ c = '-' ∨ c = '_') ∧
    (∀ c ∈ (safe_filename name).toList, Char.toLower c = c) ∧
    (pyStrip name = "" → safe_filename name = "untitled") ∧
    (∀ (root conference : String) (year : Int) (topic lang t2 : String),
      safe_filename name = safe_filename t2 →
      summarizerSummaryPath root conference year topic lang name =
        summarizerSummaryPath root conference year topic lang t2) := by
  have hcore : safe_filename name ≠ "" ∧
      (safe_filename name).length ≤ 180 ∧
      (∀ c ∈ (safe_filename name).toList,
          c.isAlphanum = true ∨ c = '-' ∨ c = '_') ∧
      (∀ c ∈ (safe_filename name).toList, Char.toLower c = c) ∧
      (pyStrip name = "" → safe_filename name = "untitled") := by
    simp only [safe_filename]
    set replaced := (pyStrip name).toList.map pyKeepChar with hrep
    set joined := joinUnderscore (splitWs replaced) with hj
    set truncated := joined.take 180 with ht
    set lowered := truncated.map Char.toLower with hl
    have hR : ∀ c ∈ replaced,
        (c.isAlphanum = true ∨ c = '-' ∨ c = '_' ∨ c = ' ') := by
      intro c hc
      rcases List.mem_map.1 (hrep ▸ hc) with ⟨d, _, rfl⟩
      exact pyKeepChar_mem d
    have hwords := splitWsAux_chars
      (fun c => c.isAlphanum = true ∨ c = '-' ∨ c = '_' ∨ c = ' ')
      replaced [] hR (by simp)
    have hjoined : ∀ c ∈ joined, c.isAlphanum = true ∨ c = '-' ∨ c = '_' := by
      rw [hj]
      refine joinUnderscore_chars _ (Or.inr (Or.inr rfl)) _ ?_
      intro w hw c hc
      rcases hwords w hw c hc with ⟨hk, hnws⟩
      rcases hk with h | h | h | h
      · exact Or.inl h
      · exact Or.inr (Or.inl h)
      · exact Or.inr (Or.inr h)
      · rw [h] at hnws; simp at hnws
    have htruncJ : ∀ c ∈ truncated, c.isAlphanum = true ∨ c = '-' ∨ c = '_' := by
      intro c hc
      exact hjoined c (List.take_subset _ _ (ht ▸ hc))
    have hlow1 : ∀ c ∈ lowered, c.isAlphanum = true ∨ c = '-' ∨ c = '_' := by
      intro c hc
      rcases List.mem_map.1 (hl ▸ hc) with ⟨d, hd, rfl⟩
      rcases htruncJ d hd with h | h | h
      · exact Or.inl (toLower_isAlphanum d h)
      · subst h; exact Or.inr (Or.inl (by decide))
      · subst h; exact Or.inr (Or.inr (by decide))
    have hlow2 : ∀ c ∈ lowered, Char.toLower c = c := by
      intro c hc
      rcases List.mem_map.1 (hl ▸ hc) with ⟨d, _, rfl⟩
      exact toLower_idem d
    by_cases hempty : lowered.isEmpty = true
    · rw [if_pos hempty]
      refine ⟨by decide, by decide, by decide, by decide, fun _ => rfl⟩
    · rw [if_neg hempty]
      refine ⟨?_, ?_, ?_, ?_, ?_⟩
      · intro h
        have hnil : lowered = [] := congrArg String.data h
        rw [hnil] at hempty
        simp at hempty
      · show lowered.length ≤ 180
        rw [hl, List.length_map, ht, List.length_take]
        exact min_le_left _ _
      · exact hlow1
      · exact hlow2
      · intro htrim
        exfalso
        apply hempty
        rw [hl, ht, hj, hrep, htrim]
        rfl
  refine ⟨hcore.1, hcore.2.1, hcore.2.2.1, hcore.2.2.2.1, hcore.2.2.2.2, ?_⟩
  intro root conference year topic lang t2 h
  unfold summarizerSummaryPath
  rw [h]

/-- Witness for safe_filename_spec at a whitespace-only ASCII input. -/
theorem safe_filename_spec_witness :
    (∀ c ∈ (" " : String).toList, asciiSafe c = true) ∧
    pyStrip " " = "" ∧ safe_filename " " = "untitled" :=
  ⟨by decide, rfl, (safe_filename_spec " " (by decide)).2.2.2.2.1 rfl⟩

/-- C6 counterexample: the keyword filter matches keywords as substrings
of the lowercased title; private learning via x does not contain privacy
or differential privacy, so the round-trip scenario selects nothing
rather than exactly the first paper. -/
theorem keyword_filter_roundtrip_not_one :
    filterByKeywordsSelect privacyKeywords [privateLearningRow, unrelatedMLRow] = [] ∧
    filterByKeywordsSelect privacyKeywords [privateLearningRow, unrelatedMLRow] ≠
      [privateLearningRow] := by
  refine ⟨rfl, ?_⟩
  intro h
  rw [show filterByKeywordsSelect privacyKeywords
      [privateLearningRow, unrelatedMLRow] = [] from rfl] at h
  exact List.noConfusion h

/-- C6 (amended): in the round-trip scenario the keyword filter selects
no papers, the filtered collection has size 0, and merging the empty
selection creates no collection file. -/
theorem keyword_filter_roundtrip_zero :
    filterByKeywordsSelect privacyKeywords [privateLearningRow, unrelatedMLRow] = [] ∧
    (filterByKeywordsSelect privacyKeywords
      [privateLearningRow, unrelatedMLRow]).length = 0 ∧
    update_jsonl none (filterByKeywordsSelect privacyKeywords
      [privateLearningRow, unrelatedMLRow]) = (none, 0) :=
  ⟨rfl, rfl, rfl⟩

/-- C7: the decision strings 1 and 0 and the JSON objects with decision 1
and decision "0" parse to their booleans, the unrecognized input maybe is
undecidable, and an undecidable decision leaves the paper unselected and
uncounted while the stage still reports success. -/
theorem llm_decision_parsing :
    parse_llm_decision (some "1") = some true ∧
    parse_llm_decision (some "0") = some false ∧
    parse_llm_decision (some "\x7b\"decision\": 1\x7d") = some true ∧
    parse_llm_decision (some "\x7b\"decision\": \"0\"\x7d") = some false ∧
    parse_llm_decision (some "maybe") = none ∧
    filterByLLM (fun _ => { status := "success", data := "maybe" })
      [privateLearningRow] = ([], 0) ∧
    (filter_by_llm (fun _ => { status := "success", data := "maybe" })
      [privateLearningRow] none
      "papers/paper_list/neurips_2020/filtered_privacy.jsonl").1.status =
      "success" :=
  ⟨rfl, rfl, rfl, rfl, rfl, rfl, rfl⟩

/-- C1: the error short-circuit fails on the graph as built.  At a run
whose filter tool reports the missing-list error, the filter node's
output has status error and the check_for_errors guard does select the
error handler as its only conditional target, but the unconditional
add_edge of graph.py line 63 activates summarize_papers as well: the
successor set of filter_papers is [summarize_papers, handle_error], so
summarize_papers is still triggered and the run does not route only to
the error handler. -/
theorem filter_error_still_triggers_summarize :
    (filter_papers_node sampleState (.ok filterErrResult)).status = "error" ∧
    condTargets .filterPapers
      (filter_papers_node sampleState (.ok filterErrResult)) =
      [.handleError] ∧
    workflowSuccessors .filterPapers
      (filter_papers_node sampleState (.ok filterErrResult)) =
      [.summarizePapers, .handleError] ∧
    GNode.summarizePapers ∈ workflowSuccessors .filterPapers
      (filter_papers_node sampleState (.ok filterErrResult)) ∧
    workflowSuccessors .filterPapers
      (filter_papers_node sampleState (.ok filterErrResult)) ≠
      [.handleError] := by
  have hval : workflowSuccessors .filterPapers
      (filter_papers_node sampleState (.ok filterErrResult)) =
      [.summarizePapers, .handleError] := rfl
  refine ⟨rfl, rfl, hval, ?_, ?_⟩
  · rw [hval]; decide
  · rw [hval]; decide

/-- C8: every stage node converts an exception raised by its work into a
state with status error and the node's descriptive message; no exception
reaches the orchestrator (the nodes are total functions whose except
branch is exactly this conversion). -/
theorem nodes_catch_exceptions (s : WFState) (e now : String) (tNow : Nat)
    (hk : s.skipKeywordGeneration = false) (hc : s.skipCrawling = false) :
    ((generate_keywords_node s (.error e)).status = "error" ∧
     (generate_keywords_node s (.error e)).errorMessage =
       some ("Error in generate_keywords_node: " ++ e)) ∧
    ((crawl_papers_node s (.error e)).status = "error" ∧
     (crawl_papers_node s (.error e)).errorMessage =
       some ("Error in crawl_papers_node: " ++ e)) ∧
    ((filter_papers_node s (.error e)).status = "error" ∧
     (filter_papers_node s (.error e)).errorMessage =
       some ("Error in filter_papers_node: " ++ e)) ∧
    ((summarize_papers_node s (.error e)).status = "error" ∧
     (summarize_papers_node s (.error e)).errorMessage =
       some ("Error in summarize_papers_node: " ++ e)) ∧
    ((aggregate_summary_node s (.error e)).status = "error" ∧
     (aggregate_summary_node s (.error e)).errorMessage =
       some ("Error in aggregate_summary_node: " ++ e)) ∧
    ((finalize_workflow_node now tNow s (.error e)).status = "error" ∧
     (finalize_workflow_node now tNow s (.error e)).errorMessage =
       some ("Error in finalize_workflow_node: " ++ e)) := by
  refine ⟨⟨?_, ?_⟩, ⟨?_, ?_⟩, ⟨?_, ?_⟩, ⟨?_, ?_⟩, ⟨?_, ?_⟩, ⟨?_, ?_⟩⟩ <;>
    simp [generate_keywords_node, crawl_papers_node, filter_papers_node,
      summarize_papers_node, aggregate_summary_node, finalize_workflow_node,
      update_state_progress, update_state_error, hk, hc]

/-- Witness for nodes_catch_exceptions on the sample run. -/
theorem nodes_catch_exceptions_witness :
    sampleState.skipKeywordGeneration = false ∧
    sampleState.skipCrawling = false ∧
    (generate_keywords_node sampleState (.error "boom")).status = "error" ∧
    (finalize_workflow_node "2024-01-01T00:00:00" 0 sampleState
      (.error "boom")).status = "error" :=
  ⟨rfl, rfl,
    (nodes_catch_exceptions sampleState "boom" "2024-01-01T00:00:00" 0
      rfl rfl).1.1,
    (nodes_catch_exceptions sampleState "boom" "2024-01-01T00:00:00" 0
      rfl rfl).2.2.2.2.2.1⟩

/-- One aggregation-loop iteration on a dict paper either appends the
paper's report row (artifact present and parsable) or counts a failure. -/
lemma aggStep_eq (fileFs : String → Option String) (dir : String)
    (acc : List AggRow × Nat) (p : PyVal) (hd : isDict p = true) :
    aggStep fileFs dir acc p =
      if artifactGood fileFs dir p then (acc.1 ++ [aggRowOf fileFs dir p], acc.2)
      else (acc.1, acc.2 + 1) := by
  unfold aggStep artifactGood aggRowOf
  rw [hd]
  simp only [Bool.not_true, Bool.false_eq_true, if_false]
  cases hfs : fileFs (dir ++ "/" ++
      safe_filename (pyStrip (pyStr (dictGetD p "title" (.vStr "untitled")))) ++
      ".md") with
  | none => simp
  | some content =>
    cases hp : parse_markdown_summary content with
    | error e => simp [hp]
    | ok parsed => simp [hp]

/-- The aggregation loop over dict papers produces exactly the rows of
the papers with good artifacts and counts the others as failures. -/
lemma aggFold (fileFs : String → Option String) (dir : String) :
    ∀ (ps : List PyVal) (acc : List AggRow × Nat),
      (∀ p ∈ ps, isDict p = true) →
      ps.foldl (aggStep fileFs dir) acc =
        (acc.1 ++ (ps.filter (artifactGood fileFs dir)).map (aggRowOf fileFs dir),
         acc.2 + (ps.filter (fun p => !(artifactGood fileFs dir p))).length) := by
  intro ps
  induction ps with
  | nil => intro acc _; simp
  | cons p ps ih =>
    intro acc h
    simp only [List.foldl_cons]
    rw [aggStep_eq fileFs dir acc p (h p (by simp))]
    by_cases hg : artifactGood fileFs dir p = true
    · rw [if_pos hg, ih _ (fun q hq => h q (by simp [hq]))]
      simp [List.filter_cons, hg, List.append_assoc]
    · have hg' : artifactGood fileFs dir p = false := by
        revert hg; cases artifactGood fileFs dir p <;> simp
      rw [if_neg hg, ih _ (fun q hq => h q (by simp [hq]))]
      simp [List.filter_cons, hg']
      omega

/-- C4 counterexample: with three filtered papers of which only the first
two have artifacts, the aggregate stage reports success (not an error
naming the third paper) and writes exactly the two-row report the claim
forbids. -/
theorem aggregate_missing_artifact_no_error :
    (aggregate_summaries_impl (some aggPapers) true aggFs "neurips" 2020
      "privacy" "EN" "papers/paper_list" "papers/paper_summary").status =
      "success" ∧
    (aggregate_summaries_impl (some aggPapers) true aggFs "neurips" 2020
      "privacy" "EN" "papers/paper_list" "papers/paper_summary").status ≠
      "error" ∧
    (aggregate_summaries_impl (some aggPapers) true aggFs "neurips" 2020
      "privacy" "EN" "papers/paper_list" "papers/paper_summary").aggregatedCount
      = 2 ∧
    (aggregate_summaries_impl (some aggPapers) true aggFs "neurips" 2020
      "privacy" "EN" "papers/paper_list" "papers/paper_summary").failedCount
      = 1 ∧
    (aggregate_summaries_impl (some aggPapers) true aggFs "neurips" 2020
      "privacy" "EN" "papers/paper_list" "papers/paper_summary").rows.map
      (fun r => r.title) = ["Paper One", "Paper Two"] := by
  refine ⟨rfl, by decide, rfl, rfl, rfl⟩

/-- C4 (amended): the aggregate stage does not fail when artifacts are
missing: each paper without a readable, parsable artifact is skipped and
counted in failed_count, the report holds exactly the papers whose
artifacts exist and parse, and the stage reports success whenever at
least one paper aggregates. -/
theorem aggregate_skips_missing
    (fileFs : String → Option String) (content : List PyVal)
    (conference : String) (year : Int)
    (topic language listRoot summaryRoot : String)
    (hdicts : ∀ p ∈ content, isDict p = true)
    (hne : content ≠ [])
    (hmiss : ∃ p ∈ content, artifactGood fileFs
      (summaryDirPath summaryRoot conference year topic language) p = false)
    (hgood : ∃ p ∈ content, artifactGood fileFs
      (summaryDirPath summaryRoot conference year topic language) p = true) :
    (aggregate_summaries_impl (some content) true fileFs conference year topic
      language listRoot summaryRoot).status = "success" ∧
    (aggregate_summaries_impl (some content) true fileFs conference year topic
      language listRoot summaryRoot).rows =
      (content.filter (artifactGood fileFs
        (summaryDirPath summaryRoot conference year topic language))).map
        (aggRowOf fileFs (summaryDirPath summaryRoot conference year topic language)) ∧
    (aggregate_summaries_impl (some content) true fileFs conference year topic
      language listRoot summaryRoot).failedCount =
      (content.filter (fun p => !(artifactGood fileFs
        (summaryDirPath summaryRoot conference year topic language) p))).length ∧
    1 ≤ (aggregate_summaries_impl (some content) true fileFs conference year
      topic language listRoot summaryRoot).failedCount := by
  set dir := summaryDirPath summaryRoot conference year topic language with hdir
  have hfilter : content.filter isDict = content := List.filter_eq_self.2 hdicts
  have hnonempty : content.isEmpty = false := by
    cases content with
    | nil => exact absurd rfl hne
    | cons a l => rfl
  have hrowsne : (content.filter (artifactGood fileFs dir)) ≠ [] := by
    rcases hgood with ⟨p, hp, hpg⟩
    intro hnil
    have hpmem : p ∈ content.filter (artifactGood fileFs dir) :=
      List.mem_filter.2 ⟨hp, hpg⟩
    rw [hnil] at hpmem
    exact List.not_mem_nil p hpmem
  have himpl : aggregate_summaries_impl (some content) true fileFs conference
      year topic language listRoot summaryRoot =
      { status := "success",
        aggregatedCount := ((content.filter (artifactGood fileFs dir)).map
          (aggRowOf fileFs dir)).length,
        failedCount := (content.filter (fun p =>
          !(artifactGood fileFs dir p))).length,
        excelPath := some (dir ++ "/summary.xlsx"),
        message := some ("Aggregated " ++
          toString ((content.filter (artifactGood fileFs dir)).map
            (aggRowOf fileFs dir)).length ++ " " ++ language ++
          " summaries, " ++ toString (content.filter (fun p =>
            !(artifactGood fileFs dir p))).length ++ " failures"),
        rows := (content.filter (artifactGood fileFs dir)).map
          (aggRowOf fileFs dir) } := by
    unfold aggregate_summaries_impl
    simp only [hfilter, hnonempty, Bool.not_true, ← hdir]
    rw [aggFold fileFs dir content ([], 0) hdicts]
    simp only [List.nil_append, Nat.zero_add]
    have hre : (((content.filter (artifactGood fileFs dir)).map
        (aggRowOf fileFs dir)).isEmpty) = false := by
      cases hm : (content.filter (artifactGood fileFs dir)) with
      | nil => exact absurd hm hrowsne
      | cons a l => rfl
    simp only [hre]
    rfl
  rw [himpl]
  refine ⟨rfl, rfl, rfl, ?_⟩
  rcases hmiss with ⟨p, hp, hpb⟩
  have hmem : p ∈ content.filter (fun q => !(artifactGood fileFs dir q)) :=
    List.mem_filter.2 ⟨hp, by rw [hpb]; rfl⟩
  calc 1 ≤ (content.filter (fun q => !(artifactGood fileFs dir q))).length :=
        List.length_pos.2 (List.ne_nil_of_mem hmem)
    _ = _ := rfl

/-- Witness for aggregate_skips_missing at the three-paper scenario. -/
theorem aggregate_skips_missing_witness :
    (∀ p ∈ aggPapers, isDict p = true) ∧ aggPapers ≠ [] ∧
    (∃ p ∈ aggPapers, artifactGood aggFs
      (summaryDirPath "papers/paper_summary" "neurips" 2020 "privacy" "EN") p =
      false) ∧
    (∃ p ∈ aggPapers, artifactGood aggFs
      (summaryDirPath "papers/paper_summary" "neurips" 2020 "privacy" "EN") p =
      true) ∧
    (aggregate_summaries_impl (some aggPapers) true aggFs "neurips" 2020
      "privacy" "EN" "papers/paper_list" "papers/paper_summary").status =
      "success" := by
  refine ⟨by decide, ?_, ?_, ?_, ?_⟩
  · intro h; simp [aggPapers] at h
  · exact ⟨.vDict [("title", .vStr "Paper Three")], by simp [aggPapers], rfl⟩
  · exact ⟨.vDict [("title", .vStr "Paper One")], by simp [aggPapers], rfl⟩
  · exact (aggregate_skips_missing aggFs aggPapers "neurips" 2020 "privacy"
      "EN" "papers/paper_list" "papers/paper_summary" (by decide)
      (fun h => by simp [aggPapers] at h)
      ⟨.vDict [("title", .vStr "Paper Three")], by simp [aggPapers], rfl⟩
      ⟨.vDict [("title", .vStr "Paper One")], by simp [aggPapers], rfl⟩).1

end RTA
